import Mathlib

/-!
Shallow embedding of `src/issuebot.py`, a Discord bot that files GitHub
issues from user reports, together with theorems settling the spec claims.

The embedding models:
* the module-level configuration check (environment variables, `exit(1)`);
* `create_github_issue` (payload construction, `raise_for_status`,
  exception handling, `html_url` extraction);
* the `on_message` keyword scanner and `MainView` button callbacks;
* `ReportModal.__init__` (form field constraints) and
  `ReportModal.callback` (title/body formatting, HTTP call, result
  presentation), as a trace of observable effects.

Python-specific semantics (string truthiness, `str.capitalize`,
`str.lower`, substring `in`, decimal rendering of ids, unbound local
variables raising `UnboundLocalError`) are modelled explicitly.
-/

namespace IssueBot

/-- Python `str.lower()` (ASCII behaviour, as used on message content). -/
def pyLower (s : String) : String := String.mk (s.data.map Char.toLower)

/-- Python `str.capitalize()` (ASCII behaviour): first character
uppercased, the rest lowercased. -/
def pyCapitalize (s : String) : String :=
  match s.data with
  | [] => ""
  | c :: cs => String.mk (c.toUpper :: cs.map Char.toLower)

/-- Truthiness of an optional string, as Python evaluates
`if x:` for `x : str | None`: `None` and `""` are falsy. -/
def pyTruthyOpt : Option String → Bool
  | none => false
  | some s => s ≠ ""

/-- `listStartsWith hay needle`: `hay` begins with `needle`. -/
def listStartsWith : List Char → List Char → Bool
  | _, [] => true
  | [], _ :: _ => false
  | a :: as, b :: bs => a == b && listStartsWith as bs

/-- `hasSub needle hay`: `needle` occurs contiguously in `hay`
(Python `needle in hay` on strings). -/
def hasSub : List Char → List Char → Bool
  | needle, [] => needle.isEmpty
  | needle, c :: rest => listStartsWith (c :: rest) needle || hasSub needle rest

/-- Python `needle in hay` for strings. -/
def containsSub (hay needle : String) : Bool := hasSub needle.data hay.data

/-! ## Configuration check (module level, lines 16-23) -/

/-- The three environment variables read at module load
(`os.environ.get` yields `None` when the variable is absent). -/
structure Env where
  DISCORD_TOKEN : Option String
  GITHUB_TOKEN : Option String
  GITHUB_REPO : Option String
deriving DecidableEq, Repr

/-- Outcome of the module-level configuration check. -/
inductive StartupResult where
  | exited (code : Nat) (messages : List String)
  | proceeded
deriving DecidableEq, Repr

/-- `if not all([DISCORD_TOKEN, GITHUB_TOKEN, GITHUB_REPO]): print(...); print(...); exit(1)`.
Python `all` applies truthiness to each element, so an absent variable
(`None`) and a present-but-empty one (`""`) both fail the check. -/
def startupCheck (e : Env) : StartupResult :=
  if pyTruthyOpt e.DISCORD_TOKEN && pyTruthyOpt e.GITHUB_TOKEN && pyTruthyOpt e.GITHUB_REPO then
    StartupResult.proceeded
  else
    StartupResult.exited 1
      ["Error: Missing one or more environment variables.",
       "Please set DISCORD_TOKEN, GITHUB_TOKEN, and GITHUB_REPO."]

/-! ## `create_github_issue` (lines 26-61) -/

/-- The JSON payload `{"title": ..., "body": ..., "labels": [...]}` sent
to the issues endpoint. -/
structure IssuePayload where
  title : String
  body : String
  labels : List String
deriving DecidableEq, Repr

/-- `print` diagnostics emitted by `create_github_issue`'s `except` branch. -/
inductive LogEvent where
  | errorCreating (excClass : String)
  | responseContent (content : String)
deriving DecidableEq, Repr

/-- Outcome of `requests.post`: either the call itself raises a
transport-level `requests.exceptions.RequestException` (of class
`excClass`) before any response exists, or a response arrives with a
status code, raw body `content`, and the JSON object the body parses to
(as string-valued fields). -/
inductive PostOutcome where
  | transportError (excClass : String)
  | response (status : Nat) (content : String) (json : List (String × String))
deriving DecidableEq, Repr

/-- Observable result of one `create_github_issue` call: the payload it
built, what it printed, the exception class escaping it (if any), and its
return value (meaningful when `raised = none`). -/
structure GHCall where
  payload : IssuePayload
  logs : List LogEvent
  raised : Option String
  ret : Option String
deriving DecidableEq, Repr

/-- `response.raise_for_status()` raises `requests.exceptions.HTTPError`
exactly for 4xx and 5xx status codes. -/
def raiseForStatusRaises (status : Nat) : Bool := 400 ≤ status && status < 600

/-- Embedding of `create_github_issue(title, body, label)` (lines 26-61).

* Builds `payload = {"title": title, "body": body, "labels": [label]}`.
* If `requests.post` raises (transport error), the `except` handler
  prints the error, then evaluates `response.content`; `response` is an
  unbound local there, so `UnboundLocalError` escapes the function.
* If a 4xx/5xx response arrives, `raise_for_status` raises `HTTPError`,
  which is caught: the error is printed, the response body is printed
  when non-empty (`if response.content:`), and `None` is returned.
* Otherwise `response.json().get("html_url")` is returned. -/
def create_github_issue (title body label : String) (post : PostOutcome) : GHCall :=
  let payload : IssuePayload := { title := title, body := body, labels := [label] }
  match post with
  | PostOutcome.transportError excClass =>
      { payload := payload,
        logs := [LogEvent.errorCreating excClass],
        raised := some "UnboundLocalError",
        ret := none }
  | PostOutcome.response status content json =>
      if raiseForStatusRaises status then
        { payload := payload,
          logs := LogEvent.errorCreating "HTTPError" ::
            (if content ≠ "" then [LogEvent.responseContent content] else []),
          raised := none,
          ret := none }
      else
        { payload := payload,
          logs := [],
          raised := none,
          ret := json.lookup "html_url" }

/-! ## Discord UI model -/

/-- The invoking Discord user, as used by the callback
(`interaction.user.name`, `interaction.user.id`, `interaction.user.mention`). -/
structure User where
  name : String
  id : Nat
deriving DecidableEq, Repr

/-- `interaction.user.mention` renders as `<@id>`. -/
def User.mention (u : User) : String := "<@" ++ Nat.repr u.id ++ ">"

/-- `discord.InputTextStyle` values used by the modal. -/
inductive InputTextStyle where
  | short
  | long
deriving DecidableEq, Repr

/-- One `discord.ui.InputText` field as constructed in
`ReportModal.__init__` (`required` defaults to `True` in the library). -/
structure InputField where
  label : String
  placeholder : String
  style : InputTextStyle
  max_length : Nat
  required : Bool
  value : Option String
deriving DecidableEq, Repr

/-- The `ReportModal` after `__init__` (lines 187-206): its issue type,
its window title, and its two input fields in order. -/
structure ReportModalData where
  issue_type : String
  modalTitle : String
  titleField : InputField
  descriptionField : InputField
deriving DecidableEq, Repr

/-- Embedding of `ReportModal.__init__(issue_type, message_content)`:
a short required title field capped at 50 characters and a long required
description field capped at 1000 characters, the latter pre-filled with
`message_content`. -/
def ReportModal.init (issue_type : String) (message_content : Option String) : ReportModalData :=
  { issue_type := issue_type,
    modalTitle := pyCapitalize issue_type ++ " Report",
    titleField :=
      { label := "Title",
        placeholder := "Title of your " ++ issue_type ++ " report",
        style := InputTextStyle.short,
        max_length := 50,
        required := true,
        value := none },
    descriptionField :=
      { label := "Description",
        placeholder := "Description of your " ++ issue_type ++ " report",
        style := InputTextStyle.long,
        max_length := 1000,
        required := true,
        value := message_content } }

/-- A submitted value is accepted by a field when it fits the field's
`max_length` and, for a required field, is non-empty. This is the
client-side constraint Discord enforces before the modal's callback runs. -/
def fieldAccepts (f : InputField) (v : String) : Prop :=
  v.length ≤ f.max_length ∧ (f.required = true → v ≠ "")

instance (f : InputField) (v : String) : Decidable (fieldAccepts f v) := by
  unfold fieldAccepts; infer_instance

/-- `MainView` state: the triggering message's content, when the view was
opened from the passive keyword scanner (lines 125-138). -/
structure MainView where
  message_content : Option String
deriving DecidableEq, Repr

/-- The "Bug Report" button callback opens
`ReportModal(issue_type="bug", message_content=self.message_content)`. -/
def MainView.button_callback (v : MainView) : ReportModalData :=
  ReportModal.init "bug" v.message_content

/-- The "Suggestion" button callback opens
`ReportModal(issue_type="suggestion", message_content=self.message_content)`. -/
def MainView.button_callback2 (v : MainView) : ReportModalData :=
  ReportModal.init "suggestion" v.message_content

/-! ## `on_message` keyword scanner (lines 78-108) -/

def bug_keywords : List String := ["bug", "issue", "error", "problem"]

def suggestion_keywords : List String := ["suggestion", "idea", "feature", "improve"]

/-- `any(keyword in content for keyword in bug_keywords) or
any(keyword in content for keyword in suggestion_keywords)`, where
`content` is the already-lowercased message text. -/
def triggers (content : String) : Bool :=
  bug_keywords.any (fun k => containsSub content k) ||
    suggestion_keywords.any (fun k => containsSub content k)

/-- What the `on_message` handler does with one message event. -/
inductive MessageAction where
  | noAction
  | reply (embedTitle embedDescription : String) (view : MainView)
deriving DecidableEq, Repr

/-- Embedding of `on_message` (lines 78-108): messages from the bot
itself are ignored; otherwise the lowercased content is scanned for the
keyword sets and, on a hit, the bot replies with a `MainView` carrying
the original message content. -/
def on_message (authorIsBot : Bool) (content : String) : MessageAction :=
  if authorIsBot then MessageAction.noAction
  else if triggers (pyLower content) then
    MessageAction.reply
      "Did you want to report an issue or suggest a feature?"
      "Click a button below to get started."
      { message_content := some content }
  else MessageAction.noAction

/-! ## `ReportModal.callback` (lines 208-246) -/

/-- `discord.Color` values used by the result embed. -/
inductive Color where
  | green
  | red
deriving DecidableEq, Repr

/-- A Discord embed: title, description, colour, and fields
`(name, value, inline)`. -/
structure Embed where
  title : String
  description : String
  color : Color
  fields : List (String × String × Bool)
deriving DecidableEq, Repr

/-- The success embed built in the callback (lines 236-243). -/
def successEmbed (issue_type : String) (u : User) (title description url : String) : Embed :=
  { title := pyCapitalize issue_type ++ " Report Created",
    description := "✅ Thanks, " ++ u.mention ++ "! Your " ++ issue_type ++
      " report has been successfully created.",
    color := if issue_type = "suggestion" then Color.green else Color.red,
    fields :=
      [("Issue URL", "[View on GitHub](" ++ url ++ ")", false),
       ("Title", title, false),
       ("Description", "```" ++ description ++ "```", false)] }

/-- The generic failure message sent in the callback (line 246). -/
def failureText (u : User) : String :=
  "❌ Sorry, " ++ u.mention ++ ". There was an error creating the GitHub issue."

/-- Observable effects of one callback run, in order. -/
inductive Effect where
  | sendMessage (text : String) (ephemeral : Bool)
  | httpPost (payload : IssuePayload)
  | followupEmbed (e : Embed)
  | followupText (text : String)
deriving DecidableEq, Repr

/-- Result of one callback run: the effects it performed and the
exception class escaping it, if any. -/
structure CallbackRun where
  effects : List Effect
  raised : Option String
deriving DecidableEq, Repr

/-- `github_title = f"{self.issue_type.capitalize()}: {title}"` (line 223). -/
def github_title (issue_type title : String) : String :=
  pyCapitalize issue_type ++ ": " ++ title

/-- The GitHub issue body template (lines 224-229). -/
def github_body (issue_type : String) (u : User) (title description : String) : String :=
  "**" ++ pyCapitalize issue_type ++ " Report from Discord**\n\n" ++
  "**Reported by:** " ++ u.name ++ " (ID: " ++ Nat.repr u.id ++ ")\n\n" ++
  "**Title:** " ++ title ++ "\n" ++
  "**Description:**\n" ++ description

/-- The followup message chosen by `if issue_url: ... else: ...`
(lines 235-246); Python truthiness sends an empty-string URL to the
failure branch too. -/
def presentFollowup (issue_type : String) (u : User) (title description : String) :
    Option String → List Effect
  | some url =>
      if url = "" then [Effect.followupText (failureText u)]
      else [Effect.followupEmbed (successEmbed issue_type u title description url)]
  | none => [Effect.followupText (failureText u)]

/-- Embedding of `ReportModal.callback` (lines 208-246): format the
GitHub title and body, acknowledge ephemerally, call
`create_github_issue`, then present either the success embed or the
generic failure text. If `create_github_issue` raises, the exception
escapes after the acknowledgment and the HTTP attempt. -/
def ReportModal.callback (issue_type : String) (u : User) (title description : String)
    (post : PostOutcome) : CallbackRun :=
  let call := create_github_issue (github_title issue_type title)
    (github_body issue_type u title description) issue_type post
  let pre : List Effect :=
    [Effect.sendMessage "Submitting to GitHub..." true, Effect.httpPost call.payload]
  match call.raised with
  | some exc => { effects := pre, raised := some exc }
  | none =>
      { effects := pre ++ presentFollowup issue_type u title description call.ret,
        raised := none }

/-! ## Helper lemmas -/

lemma create_github_issue_payload (t b l : String) (post : PostOutcome) :
    (create_github_issue t b l post).payload = { title := t, body := b, labels := [l] } := by
  cases post with
  | transportError e => rfl
  | response s c j =>
      rw [create_github_issue]
      split <;> rfl

lemma httpPost_not_mem_presentFollowup (it : String) (u : User) (t d : String)
    (r : Option String) (p : IssuePayload) :
    Effect.httpPost p ∉ presentFollowup it u t d r := by
  cases r with
  | none => simp [presentFollowup]
  | some url =>
      rw [presentFollowup]
      split <;> simp

lemma callback_effects_eq (it : String) (u : User) (t d : String) (post : PostOutcome) :
    (ReportModal.callback it u t d post).effects =
      Effect.sendMessage "Submitting to GitHub..." true ::
      Effect.httpPost { title := github_title it t, body := github_body it u t d, labels := [it] } ::
      (match (create_github_issue (github_title it t) (github_body it u t d) it post).raised with
       | some _ => []
       | none =>
           presentFollowup it u t d
             (create_github_issue (github_title it t) (github_body it u t d) it post).ret) := by
  rw [ReportModal.callback]
  rw [create_github_issue_payload]
  split <;> simp_all

lemma raised_none_of_ret_some (t b l : String) (post : PostOutcome) (url : String)
    (h : (create_github_issue t b l post).ret = some url) :
    (create_github_issue t b l post).raised = none := by
  cases post with
  | transportError e => simp [create_github_issue] at h
  | response s c j =>
      rw [create_github_issue]
      split <;> rfl

lemma mem_of_listStartsWith : ∀ (hay needle : List Char), listStartsWith hay needle = true →
    ∀ c, c ∈ needle → c ∈ hay
  | _, [], _, _, hc => absurd hc (List.not_mem_nil _)
  | [], _ :: _, h, _, _ => by simp [listStartsWith] at h
  | a :: as, b :: bs, h, c, hc => by
      rw [listStartsWith, Bool.and_eq_true, beq_iff_eq] at h
      rcases List.mem_cons.mp hc with rfl | hm
      · exact List.mem_cons.mpr (Or.inl h.1.symm)
      · exact List.mem_cons.mpr (Or.inr (mem_of_listStartsWith as bs h.2 c hm))

lemma mem_of_hasSub : ∀ (needle hay : List Char), hasSub needle hay = true →
    ∀ c, c ∈ needle → c ∈ hay
  | [], [], _, c, hc => by simp at hc
  | _ :: _, [], h, _, _ => by simp [hasSub] at h
  | needle, a :: rest, h, c, hc => by
      rw [hasSub, Bool.or_eq_true] at h
      rcases h with h1 | h2
      · exact mem_of_listStartsWith _ _ h1 c hc
      · exact List.mem_cons.mpr (Or.inr (mem_of_hasSub needle rest h2 c hc))

lemma digitChar_ne_colon (n : Nat) : Nat.digitChar n ≠ ':' := by
  by_cases h : n < 16
  · interval_cases n <;> decide
  · unfold Nat.digitChar
    iterate 16 rw [if_neg (by omega)]
    decide

lemma toDigitsCore_digit (b : Nat) :
    ∀ (fuel n : Nat) (acc : List Char) (c : Char),
      c ∈ Nat.toDigitsCore b fuel n acc → (∃ d, c = Nat.digitChar d) ∨ c ∈ acc := by
  intro fuel
  induction fuel with
  | zero =>
      intro n acc c h
      right
      simpa [Nat.toDigitsCore] using h
  | succ f ih =>
      intro n acc c h
      simp only [Nat.toDigitsCore] at h
      split at h
      · rcases List.mem_cons.mp h with rfl | hm
        · exact Or.inl ⟨_, rfl⟩
        · exact Or.inr hm
      · rcases ih _ _ _ h with h1 | h2
        · exact Or.inl h1
        · rcases List.mem_cons.mp h2 with rfl | hm
          · exact Or.inl ⟨_, rfl⟩
          · exact Or.inr hm

lemma repr_no_colon (n : Nat) : ':' ∉ (Nat.repr n).data := by
  intro h
  have h' : ':' ∈ Nat.toDigitsCore 10 (n + 1) n [] := h
  rcases toDigitsCore_digit 10 (n + 1) n [] ':' h' with ⟨d, hd⟩ | h2
  · exact digitChar_ne_colon d hd.symm
  · simp at h2

lemma colon_not_mem_failureText (u : User) : ':' ∉ (failureText u).data := by
  intro h
  rw [failureText, User.mention] at h
  simp only [String.data_append, List.mem_append] at h
  rcases h with (h | (h | h) | h) | h
  · exact absurd h (by decide)
  · exact absurd h (by decide)
  · exact repr_no_colon u.id h
  · exact absurd h (by decide)
  · exact absurd h (by decide)

lemma failureText_no_url (u : User) : containsSub (failureText u) "://" = false := by
  cases hb : containsSub (failureText u) "://" with
  | false => rfl
  | true =>
      have hm := mem_of_hasSub _ _ hb ':' (by decide)
      exact absurd hm (colon_not_mem_failureText u)

/-! ## Claim theorems -/

/-- C1: for every valid input (title of at most 50 characters, description
of at most 1000 characters, kind in {bug, suggestion}), the callback's
HTTP request carries a payload whose `labels` field is exactly `[kind]`
and whose `title` field is the capitalized kind, followed by ": ",
followed by the user-supplied title. -/
theorem submitter_payload_labels_title (kind title description : String) (u : User)
    (post : PostOutcome)
    (hk : kind = "bug" ∨ kind = "suggestion")
    (ht : title.length ≤ 50) (hd : description.length ≤ 1000) :
    (∃ p, Effect.httpPost p ∈ (ReportModal.callback kind u title description post).effects) ∧
    ∀ p, Effect.httpPost p ∈ (ReportModal.callback kind u title description post).effects →
      p.labels = [kind] ∧ p.title = pyCapitalize kind ++ ": " ++ title := by
  rw [callback_effects_eq]
  constructor
  · exact ⟨_, List.mem_cons_of_mem _ (List.mem_cons_self _ _)⟩
  · intro p hp
    rcases List.mem_cons.mp hp with h1 | hp
    · exact absurd h1 (by simp)
    rcases List.mem_cons.mp hp with h2 | hp
    · injection h2 with hpay
      subst hpay
      exact ⟨rfl, rfl⟩
    · cases hcr : (create_github_issue (github_title kind title)
          (github_body kind u title description) kind post).raised with
      | some exc => rw [hcr] at hp; simp at hp
      | none => rw [hcr] at hp; exact absurd hp (httpPost_not_mem_presentFollowup _ _ _ _ _ _)

/-- C1 witness: the theorem applied at a concrete valid bug report. -/
theorem submitter_payload_labels_title_witness :
    (∃ p, Effect.httpPost p ∈ (ReportModal.callback "bug" ⟨"alice", 7⟩ "crash" "it crashes"
        (PostOutcome.response 201 "" [("html_url", "https://x/1")])).effects) ∧
    ∀ p, Effect.httpPost p ∈ (ReportModal.callback "bug" ⟨"alice", 7⟩ "crash" "it crashes"
        (PostOutcome.response 201 "" [("html_url", "https://x/1")])).effects →
      p.labels = ["bug"] ∧ p.title = pyCapitalize "bug" ++ ": " ++ "crash" :=
  submitter_payload_labels_title "bug" "crash" "it crashes" ⟨"alice", 7⟩
    (PostOutcome.response 201 "" [("html_url", "https://x/1")])
    (Or.inl rfl) (by decide) (by decide)

/-- C2: the claim says `create_github_issue` never raises to its caller.
The code violates this: when `requests.post` itself raises (transport
error), the `except` handler evaluates `response.content`, but `response`
is an unbound local, so `UnboundLocalError` escapes past the boundary
after only the first diagnostic print. This theorem evaluates the
embedding at that failing input. -/
theorem create_github_issue_transport_raises :
    create_github_issue "t" "b" "bug" (PostOutcome.transportError "ConnectionError") =
      { payload := { title := "t", body := "b", labels := ["bug"] },
        logs := [LogEvent.errorCreating "ConnectionError"],
        raised := some "UnboundLocalError",
        ret := none } := rfl

/-- C3: when the POST returns an HTTP 2xx status, `create_github_issue`
returns the `html_url` field of the JSON response, raising nothing. -/
theorem create_github_issue_success_url (t b l : String) (status : Nat) (content : String)
    (json : List (String × String)) (url : String)
    (h2xx : 200 ≤ status ∧ status < 300)
    (hurl : json.lookup "html_url" = some url) :
    (create_github_issue t b l (PostOutcome.response status content json)).ret = some url ∧
    (create_github_issue t b l (PostOutcome.response status content json)).raised = none := by
  have hr : raiseForStatusRaises status = false := by
    simp only [raiseForStatusRaises, Bool.and_eq_false_iff, decide_eq_false_iff_not]
    omega
  constructor <;> simp [create_github_issue, hr, hurl]

/-- C3 witness: the theorem applied at a concrete 201 response. -/
theorem create_github_issue_success_url_witness :
    (create_github_issue "t" "b" "bug"
        (PostOutcome.response 201 "" [("html_url", "https://x/1")])).ret = some "https://x/1" ∧
    (create_github_issue "t" "b" "bug"
        (PostOutcome.response 201 "" [("html_url", "https://x/1")])).raised = none :=
  create_github_issue_success_url "t" "b" "bug" 201 "" [("html_url", "https://x/1")]
    "https://x/1" (by decide) (by decide)

/-- C4: a message authored by the bot itself never triggers the passive
keyword-scanning flow: the handler takes no action, whatever the
message's content. -/
theorem on_message_bot_author_ignored (content : String) :
    on_message true content = MessageAction.noAction := rfl

/-- C5 counterexample: the claim says an empty description short-circuits
before any HTTP call and yields a usage hint. At a concrete submission
with an empty description, the callback performs the HTTP POST anyway and
follows up with the ordinary success embed, not a usage hint. -/
theorem empty_description_still_posts :
    (ReportModal.callback "bug" ⟨"alice", 7⟩ "t" ""
        (PostOutcome.response 201 "" [("html_url", "https://x/1")])).effects =
      [Effect.sendMessage "Submitting to GitHub..." true,
       Effect.httpPost { title := github_title "bug" "t",
                         body := github_body "bug" ⟨"alice", 7⟩ "t" "",
                         labels := ["bug"] },
       Effect.followupEmbed (successEmbed "bug" ⟨"alice", 7⟩ "t" "" "https://x/1")] ∧
    Effect.httpPost { title := github_title "bug" "t",
                      body := github_body "bug" ⟨"alice", 7⟩ "t" "",
                      labels := ["bug"] } ∈
      (ReportModal.callback "bug" ⟨"alice", 7⟩ "t" ""
        (PostOutcome.response 201 "" [("html_url", "https://x/1")])).effects := by
  constructor
  · rfl
  · exact List.mem_cons_of_mem _ (List.mem_cons_self _ _)

/-- C5 amended: the modal variant has no empty-description guard in its
callback — the HTTP call happens even for an empty description and no
usage hint exists — but the description field is declared required, so
the UI layer rejects empty submissions before the callback runs. -/
theorem callback_no_empty_description_guard (issue_type : String) (u : User) (title : String)
    (post : PostOutcome) :
    (∃ p, Effect.httpPost p ∈ (ReportModal.callback issue_type u title "" post).effects) ∧
    ∀ mc, (ReportModal.init issue_type mc).descriptionField.required = true := by
  constructor
  · rw [callback_effects_eq]
    exact ⟨_, List.mem_cons_of_mem _ (List.mem_cons_self _ _)⟩
  · intro mc
    rfl

/-- C6: when the submitter returns a (non-empty) URL, the followup embed
contains exactly that issue URL together with the title and description;
when it returns the failure signal `None`, the followup is the generic
failure text, which contains no URL (no "://" occurs in it). -/
theorem presenter_url_or_generic_failure :
    (∀ issue_type u title description post url,
      (create_github_issue (github_title issue_type title)
          (github_body issue_type u title description) issue_type post).ret = some url →
      url ≠ "" →
      (ReportModal.callback issue_type u title description post).effects =
        [Effect.sendMessage "Submitting to GitHub..." true,
         Effect.httpPost { title := github_title issue_type title,
                           body := github_body issue_type u title description,
                           labels := [issue_type] },
         Effect.followupEmbed (successEmbed issue_type u title description url)] ∧
      ("Issue URL", "[View on GitHub](" ++ url ++ ")", false) ∈
          (successEmbed issue_type u title description url).fields ∧
      ("Title", title, false) ∈ (successEmbed issue_type u title description url).fields ∧
      ("Description", "```" ++ description ++ "```", false) ∈
          (successEmbed issue_type u title description url).fields) ∧
    (∀ issue_type u title description post,
      (create_github_issue (github_title issue_type title)
          (github_body issue_type u title description) issue_type post).raised = none →
      (create_github_issue (github_title issue_type title)
          (github_body issue_type u title description) issue_type post).ret = none →
      (ReportModal.callback issue_type u title description post).effects =
        [Effect.sendMessage "Submitting to GitHub..." true,
         Effect.httpPost { title := github_title issue_type title,
                           body := github_body issue_type u title description,
                           labels := [issue_type] },
         Effect.followupText (failureText u)] ∧
      containsSub (failureText u) "://" = false) := by
  constructor
  · intro it u t d post url hret hne
    refine ⟨?_, by simp [successEmbed], by simp [successEmbed], by simp [successEmbed]⟩
    rw [callback_effects_eq, raised_none_of_ret_some _ _ _ _ _ hret, hret]
    simp [presentFollowup, hne]
  · intro it u t d post hraised hret
    constructor
    · rw [callback_effects_eq, hraised, hret]
      simp [presentFollowup]
    · exact failureText_no_url u

/-- C6 witness: the theorem applied at a concrete 201 response with a
URL, and at a concrete 422 response. -/
theorem presenter_url_or_generic_failure_witness :
    ((ReportModal.callback "bug" ⟨"alice", 7⟩ "t" "d"
        (PostOutcome.response 201 "" [("html_url", "https://x/1")])).effects =
      [Effect.sendMessage "Submitting to GitHub..." true,
       Effect.httpPost { title := github_title "bug" "t",
                         body := github_body "bug" ⟨"alice", 7⟩ "t" "d",
                         labels := ["bug"] },
       Effect.followupEmbed (successEmbed "bug" ⟨"alice", 7⟩ "t" "d" "https://x/1")] ∧
     ("Issue URL", "[View on GitHub](" ++ "https://x/1" ++ ")", false) ∈
        (successEmbed "bug" ⟨"alice", 7⟩ "t" "d" "https://x/1").fields ∧
     ("Title", "t", false) ∈ (successEmbed "bug" ⟨"alice", 7⟩ "t" "d" "https://x/1").fields ∧
     ("Description", "```" ++ "d" ++ "```", false) ∈
        (successEmbed "bug" ⟨"alice", 7⟩ "t" "d" "https://x/1").fields) ∧
    ((ReportModal.callback "bug" ⟨"alice", 7⟩ "t" "d"
        (PostOutcome.response 422 "Validation Failed" [])).effects =
      [Effect.sendMessage "Submitting to GitHub..." true,
       Effect.httpPost { title := github_title "bug" "t",
                         body := github_body "bug" ⟨"alice", 7⟩ "t" "d",
                         labels := ["bug"] },
       Effect.followupText (failureText ⟨"alice", 7⟩)] ∧
     containsSub (failureText ⟨"alice", 7⟩) "://" = false) :=
  ⟨presenter_url_or_generic_failure.1 "bug" ⟨"alice", 7⟩ "t" "d"
      (PostOutcome.response 201 "" [("html_url", "https://x/1")]) "https://x/1" rfl (by decide),
   presenter_url_or_generic_failure.2 "bug" ⟨"alice", 7⟩ "t" "d"
      (PostOutcome.response 422 "Validation Failed" []) rfl rfl⟩

/-- C7 counterexample: the claim says that when all three environment
variables are present, startup proceeds. With all three present but
`DISCORD_TOKEN` empty, the module-level check exits with code 1 instead,
because Python truthiness treats `""` like an absent value. -/
theorem startup_present_empty_token_exits :
    startupCheck { DISCORD_TOKEN := some "", GITHUB_TOKEN := some "g", GITHUB_REPO := some "r" } =
      StartupResult.exited 1
        ["Error: Missing one or more environment variables.",
         "Please set DISCORD_TOKEN, GITHUB_TOKEN, and GITHUB_REPO."] := rfl

/-- C7 amended: if any of the three variables is absent, the process
prints the diagnostic and exits with code 1; if all three are present
and non-empty, startup proceeds. -/
theorem startup_check_amended (e : Env) :
    ((e.DISCORD_TOKEN = none ∨ e.DISCORD_TOKEN = some "" ∨
      e.GITHUB_TOKEN = none ∨ e.GITHUB_TOKEN = some "" ∨
      e.GITHUB_REPO = none ∨ e.GITHUB_REPO = some "") →
      startupCheck e = StartupResult.exited 1
        ["Error: Missing one or more environment variables.",
         "Please set DISCORD_TOKEN, GITHUB_TOKEN, and GITHUB_REPO."]) ∧
    ((∃ a, e.DISCORD_TOKEN = some a ∧ a ≠ "") ∧ (∃ b, e.GITHUB_TOKEN = some b ∧ b ≠ "") ∧
        (∃ c, e.GITHUB_REPO = some c ∧ c ≠ "") →
      startupCheck e = StartupResult.proceeded) := by
  constructor
  · intro h
    rcases h with h | h | h | h | h | h <;> simp [startupCheck, pyTruthyOpt, h]
  · rintro ⟨⟨a, ha, hna⟩, ⟨b, hb, hnb⟩, ⟨c, hc, hnc⟩⟩
    simp [startupCheck, pyTruthyOpt, ha, hb, hc, hna, hnb, hnc]

/-- C7 witness: the amended theorem applied at an environment missing
`DISCORD_TOKEN`, at one with an empty `GITHUB_TOKEN`, and at a
fully-populated environment. -/
theorem startup_check_amended_witness :
    startupCheck { DISCORD_TOKEN := none, GITHUB_TOKEN := some "g", GITHUB_REPO := some "r" } =
      StartupResult.exited 1
        ["Error: Missing one or more environment variables.",
         "Please set DISCORD_TOKEN, GITHUB_TOKEN, and GITHUB_REPO."] ∧
    startupCheck { DISCORD_TOKEN := some "t", GITHUB_TOKEN := some "", GITHUB_REPO := some "r" } =
      StartupResult.exited 1
        ["Error: Missing one or more environment variables.",
         "Please set DISCORD_TOKEN, GITHUB_TOKEN, and GITHUB_REPO."] ∧
    startupCheck { DISCORD_TOKEN := some "t", GITHUB_TOKEN := some "g", GITHUB_REPO := some "r" } =
      StartupResult.proceeded :=
  ⟨(startup_check_amended _).1 (Or.inl rfl),
   (startup_check_amended _).1 (Or.inr (Or.inr (Or.inr (Or.inl rfl)))),
   (startup_check_amended _).2 ⟨⟨"t", rfl, by decide⟩, ⟨"g", rfl, by decide⟩, ⟨"r", rfl, by decide⟩⟩⟩

/-- C8: a non-bot message whose lowercased text contains a bug or
suggestion keyword gets a reply carrying the report view, and both
report modals opened from that view pre-fill the description field with
the triggering message's original text; a message with no keyword
triggers nothing. -/
theorem keyword_scan_prefills_description (content : String) :
    (triggers (pyLower content) = true →
      on_message false content =
        MessageAction.reply "Did you want to report an issue or suggest a feature?"
          "Click a button below to get started." { message_content := some content } ∧
      (MainView.button_callback { message_content := some content }).descriptionField.value =
        some content ∧
      (MainView.button_callback2 { message_content := some content }).descriptionField.value =
        some content) ∧
    (triggers (pyLower content) = false → on_message false content = MessageAction.noAction) := by
  constructor
  · intro h
    exact ⟨by simp [on_message, h], rfl, rfl⟩
  · intro h
    simp [on_message, h]

/-- C8 witness: the theorem applied at a keyword-bearing message and at
a keyword-free message. -/
theorem keyword_scan_prefills_description_witness :
    (on_message false "I found a BUG" =
        MessageAction.reply "Did you want to report an issue or suggest a feature?"
          "Click a button below to get started." { message_content := some "I found a BUG" } ∧
      (MainView.button_callback { message_content := some "I found a BUG" }).descriptionField.value =
        some "I found a BUG" ∧
      (MainView.button_callback2 { message_content := some "I found a BUG" }).descriptionField.value =
        some "I found a BUG") ∧
    on_message false "hello world" = MessageAction.noAction :=
  ⟨(keyword_scan_prefills_description "I found a BUG").1 (by decide),
   (keyword_scan_prefills_description "hello world").2 (by decide)⟩

/-- C9: the report modal declares a required single-line title field
capped at 50 characters and a required multi-line description field
capped at 1000 characters, so any submission the form accepts — hence
any Report reaching the submitter — has a non-empty title of at most 50
characters and a non-empty description of at most 1000 characters. -/
theorem modal_field_constraints (issue_type : String) (mc : Option String) (t d : String)
    (ht : fieldAccepts (ReportModal.init issue_type mc).titleField t)
    (hd : fieldAccepts (ReportModal.init issue_type mc).descriptionField d) :
    ((ReportModal.init issue_type mc).titleField.style = InputTextStyle.short ∧
     (ReportModal.init issue_type mc).titleField.max_length = 50 ∧
     (ReportModal.init issue_type mc).titleField.required = true ∧
     t.length ≤ 50 ∧ t ≠ "") ∧
    ((ReportModal.init issue_type mc).descriptionField.style = InputTextStyle.long ∧
     (ReportModal.init issue_type mc).descriptionField.max_length = 1000 ∧
     (ReportModal.init issue_type mc).descriptionField.required = true ∧
     d.length ≤ 1000 ∧ d ≠ "") := by
  obtain ⟨ht1, ht2⟩ := ht
  obtain ⟨hd1, hd2⟩ := hd
  exact ⟨⟨rfl, rfl, rfl, ht1, ht2 rfl⟩, ⟨rfl, rfl, rfl, hd1, hd2 rfl⟩⟩

/-- C9 witness: the theorem applied at a concrete accepted submission. -/
theorem modal_field_constraints_witness :
    ((ReportModal.init "bug" none).titleField.style = InputTextStyle.short ∧
     (ReportModal.init "bug" none).titleField.max_length = 50 ∧
     (ReportModal.init "bug" none).titleField.required = true ∧
     ("crash" : String).length ≤ 50 ∧ ("crash" : String) ≠ "") ∧
    ((ReportModal.init "bug" none).descriptionField.style = InputTextStyle.long ∧
     (ReportModal.init "bug" none).descriptionField.max_length = 1000 ∧
     (ReportModal.init "bug" none).descriptionField.required = true ∧
     ("it crashes" : String).length ≤ 1000 ∧ ("it crashes" : String) ≠ "") :=
  modal_field_constraints "bug" none "crash" "it crashes" (by decide) (by decide)

/-- C10: a 2xx response whose JSON lacks `html_url` makes
`create_github_issue` return `None` — the same value a failed creation
returns (e.g. a 422 response) — so the callback follows up with the
generic failure text even though the issue may have been created. -/
theorem success_without_html_url_indistinguishable (t b l : String) (status : Nat)
    (content : String) (json : List (String × String)) (it : String) (u : User)
    (title description : String) (c2 : String) (j2 : List (String × String))
    (h2xx : 200 ≤ status ∧ status < 300)
    (hno : json.lookup "html_url" = none) :
    (create_github_issue t b l (PostOutcome.response status content json)).ret = none ∧
    (create_github_issue t b l (PostOutcome.response status content json)).ret =
      (create_github_issue t b l (PostOutcome.response 422 c2 j2)).ret ∧
    (ReportModal.callback it u title description (PostOutcome.response status content json)).effects =
      [Effect.sendMessage "Submitting to GitHub..." true,
       Effect.httpPost { title := github_title it title,
                         body := github_body it u title description,
                         labels := [it] },
       Effect.followupText (failureText u)] := by
  have hr : raiseForStatusRaises status = false := by
    simp only [raiseForStatusRaises, Bool.and_eq_false_iff, decide_eq_false_iff_not]
    omega
  have h1 : (create_github_issue t b l (PostOutcome.response status content json)).ret = none := by
    rw [create_github_issue]
    split <;> simp [hno]
  have h2 : (create_github_issue t b l (PostOutcome.response 422 c2 j2)).ret = none := by
    rw [create_github_issue]
    split
    · rfl
    · rename_i hfalse
      exact absurd (by decide) hfalse
  refine ⟨h1, by rw [h1, h2], ?_⟩
  · have hraised : (create_github_issue (github_title it title)
        (github_body it u title description) it (PostOutcome.response status content json)).raised =
          none := by
      simp [create_github_issue, hr]
    have hret : (create_github_issue (github_title it title)
        (github_body it u title description) it (PostOutcome.response status content json)).ret =
          none := by
      simp [create_github_issue, hr, hno]
    rw [callback_effects_eq, hraised, hret]
    simp [presentFollowup]

/-- C10 witness: the theorem applied at a concrete 201 response whose
JSON has no `html_url` field. -/
theorem success_without_html_url_indistinguishable_witness :
    (create_github_issue "t" "b" "bug"
        (PostOutcome.response 201 "{}" [("id", "5")])).ret = none ∧
    (create_github_issue "t" "b" "bug"
        (PostOutcome.response 201 "{}" [("id", "5")])).ret =
      (create_github_issue "t" "b" "bug"
        (PostOutcome.response 422 "Validation Failed" [])).ret ∧
    (ReportModal.callback "bug" ⟨"alice", 7⟩ "t" "d"
        (PostOutcome.response 201 "{}" [("id", "5")])).effects =
      [Effect.sendMessage "Submitting to GitHub..." true,
       Effect.httpPost { title := github_title "bug" "t",
                         body := github_body "bug" ⟨"alice", 7⟩ "t" "d",
                         labels := ["bug"] },
       Effect.followupText (failureText ⟨"alice", 7⟩)] :=
  success_without_html_url_indistinguishable "t" "b" "bug" 201 "{}" [("id", "5")]
    "bug" ⟨"alice", 7⟩ "t" "d" "Validation Failed" [] (by decide) (by decide)

end IssueBot
